import Mathlib

/-!
Verification of the CSV-import / aggregation / editable-table pipeline of the
Filipino-emigrants dashboard (React + PapaParse + Firestore).  The dashboard
pages embedded here are `BarChartPage.jsx` (civil status), `FlowMapPage.jsx`
(destination countries), `HorizontalChartPage.jsx` (education) and the
occupation page (`src/unnamed/part_000`).

Conventions of the shallow embedding:
* A parsed CSV row (PapaParse with `header: true`) is an association list from
  header string to cell string; a missing key models JavaScript `undefined`.
* JavaScript string truthiness: a present, non-empty string is truthy.
* `Number(s)` on the decimal-integer fragment is modelled by `jsNumber`,
  returning `none` for `NaN` (non-numeric strings); whitespace-only and empty
  strings coerce to 0 as in JavaScript.  Float/hex/exponent syntax is outside
  the domain of the data handled by these pages and maps to `none`.
* Machine numbers are modelled as `Int` (counts and years are integers in this
  application); percentages are computed in `ℚ` with explicit rounding.
-/

/-- Whitespace trimming on both ends, over the character list (kernel-reducible
replacement for `String.trim`). -/
def strTrim (s : String) : String :=
  String.mk (((s.data.dropWhile Char.isWhitespace).reverse.dropWhile
    Char.isWhitespace).reverse)

/-- Lower-casing character by character (kernel-reducible replacement for
`String.toLower`). -/
def strLower (s : String) : String :=
  String.mk (s.data.map Char.toLower)

/-- Splitting a character list at every occurrence of the separator; the
accumulator holds the current field reversed. -/
def splitCharGo (c : Char) (acc : List Char) : List Char → List (List Char)
  | [] => [acc.reverse]
  | x :: rest =>
    if x = c then acc.reverse :: splitCharGo c [] rest
    else splitCharGo c (x :: acc) rest

/-- Splitting a string at every occurrence of a separator character
(kernel-reducible replacement for `String.splitOn` with a one-character
separator). -/
def strSplit (c : Char) (s : String) : List String :=
  (splitCharGo c [] s.data).map String.mk

/-- Whether every character of the list is a decimal digit and the list is
nonempty; returns the denoted natural number. -/
def digitsToNat (l : List Char) : Option Nat :=
  if l = [] then none
  else if l.all Char.isDigit then
    some (l.foldl (fun a c => a * 10 + (c.toNat - '0'.toNat)) 0)
  else none

/-- The decimal-integer fragment of JavaScript `Number(s)` on strings:
leading/trailing whitespace is ignored, the empty (or all-whitespace) string
coerces to `0`, an optional sign precedes the digits; any other shape is `NaN`,
modelled as `none`. -/
def jsNumber (s : String) : Option Int :=
  let t := strTrim s
  if t = "" then some 0
  else
    match t.data with
    | '-' :: rest => (digitsToNat rest).map (fun n => -(n : Int))
    | '+' :: rest => (digitsToNat rest).map (fun n => (n : Int))
    | l => (digitsToNat l).map (fun n => (n : Int))

/-- JavaScript `Number(s) || 0`: `NaN` collapses to `0` (and `0` stays `0`). -/
def jsNumOr0 (s : String) : Int :=
  (jsNumber s).getD 0

/-- Association-list lookup for a parsed CSV row: `row[k]`, `none` = `undefined`. -/
def rlookup (k : String) : List (String × String) → Option String
  | [] => none
  | (k', v) :: rest => if k = k' then some v else rlookup k rest

/-- A parsed CSV row object. -/
def Row : Type := List (String × String)

/-- `row[k]` restricted to truthy results: a present, non-empty cell string.
Models one link of a JavaScript `row[a] || row[b] || ...` chain. -/
def jsGetTruthy (row : Row) (k : String) : Option String :=
  match rlookup k row with
  | some v => if v = "" then none else some v
  | none => none

/-- The value of a `row[k1] || row[k2] || ... ` chain over the given candidate
header names: the first truthy cell, if any. -/
def resolveVariants (row : Row) : List String → Option String
  | [] => none
  | k :: ks =>
    match jsGetTruthy row k with
    | some v => some v
    | none => resolveVariants row ks

/-- `Number(row[k1] || row[k2] || ... || 0) || 0`: the numeric value stored for
a category, with fallback 0 when no header variant matches (and 0 for
non-numeric cells). -/
def resolvedValue (row : Row) (ks : List String) : Int :=
  match resolveVariants row ks with
  | some v => jsNumOr0 v
  | none => 0

/-- `s.replace(/\s+/g, ' ')` character by character; the flag records whether
the previous character was part of a whitespace run. -/
def collapseGo : Bool → List Char → List Char
  | _, [] => []
  | prevWS, c :: rest =>
    if c.isWhitespace then
      if prevWS then collapseGo true rest else ' ' :: collapseGo true rest
    else c :: collapseGo false rest

/-- JavaScript `s.replace(/\s+/g, ' ')`: every maximal whitespace run becomes a
single space. -/
def collapseWS (s : String) : String :=
  String.mk (collapseGo false s.data)

/-- JavaScript `s.charAt(0).toUpperCase() + s.slice(1)`. -/
def capitalizeFirst (s : String) : String :=
  match s.data with
  | [] => ""
  | c :: rest => String.mk (c.toUpper :: rest)

/-- JavaScript `s.replace(/([A-Z])/g, ' $1').trim()`: a space is inserted
before every uppercase character, then the ends are trimmed. -/
def camelToSpaced (s : String) : String :=
  strTrim (String.mk (s.data.flatMap (fun c => if c.isUpper then [' ', c] else [c])))

/-- Result of `Papa.parse(file, { header: true, skipEmptyLines: true, ... })`
as consumed by the upload handlers: the parsed row objects and the number of
row-level errors (field-count mismatches). -/
structure ParseResult where
  data : List Row
  errors : Nat

/-- PapaParse in header mode on unquoted comma-separated text: empty lines are
skipped, the first remaining line provides the headers, every later line is
zipped with the headers into a row object, and a line whose field count
differs from the header count contributes a `FieldMismatch` entry to
`results.errors` (`TooFewFields` / `TooManyFields`) while still producing its
row. -/
def papaParse (input : String) : ParseResult :=
  match (strSplit '\n' input).filter (fun l => l ≠ "") with
  | [] => ⟨[], 0⟩
  | hline :: rest =>
    let headers := strSplit ',' hline
    let rows := rest.map (fun line => strSplit ',' line)
    ⟨rows.map (fun fs => headers.zip fs),
     (rows.filter (fun fs => fs.length ≠ headers.length)).length⟩


/-! ## Civil-status page (`BarChartPage.jsx`) -/

/-- The civil-status category fields of `BarChartPage.jsx`. -/
def civilStatusFields : List String :=
  ["single", "married", "widower", "separated", "divorced", "notReported"]

/-- A civil-status record as persisted by `BarChartPage.jsx`. -/
structure CivilRecord where
  year : Int
  single : Int
  married : Int
  widower : Int
  separated : Int
  divorced : Int
  notReported : Int
deriving DecidableEq, Repr

/-- JavaScript property access `record[field]` on a civil-status record, for
the field names used by the page; an unknown field is `undefined`, which every
consumer coerces through `|| 0`. -/
def CivilRecord.js (r : CivilRecord) (f : String) : Int :=
  if f = "year" then r.year
  else if f = "single" then r.single
  else if f = "married" then r.married
  else if f = "widower" then r.widower
  else if f = "separated" then r.separated
  else if f = "divorced" then r.divorced
  else if f = "notReported" then r.notReported
  else 0

/-- Header-variant resolution of `BarChartPage.jsx` for one category:
`row[field] || row[Field] || row[camel-to-spaced field] || 0`. -/
def civilValue (row : Row) (f : String) : Int :=
  resolvedValue row [f, capitalizeFirst f, camelToSpaced f]

/-- Row filter of `BarChartPage.jsx`:
`row.year && !isNaN(Number(row.year))`. -/
def barAccept (row : Row) : Bool :=
  match rlookup "year" row with
  | some s => s ≠ "" && (jsNumber s).isSome
  | none => false

/-- Mapping of an accepted CSV row to a civil-status record
(`{ year: Number(row.year) }` plus the resolved category values).  The `getD 0`
default for the year is unreachable: the importer maps only rows accepted by
`barAccept`, whose year is numeric-coercible. -/
def civilRowToRecord (row : Row) : CivilRecord :=
  { year := (jsNumber ((rlookup "year" row).getD "")).getD 0
    single := civilValue row "single"
    married := civilValue row "married"
    widower := civilValue row "widower"
    separated := civilValue row "separated"
    divorced := civilValue row "divorced"
    notReported := civilValue row "notReported" }

/-- The record list produced by `handleCSVUpload` of `BarChartPage.jsx`
before persistence: `none` when parse errors abort the import, otherwise the
valid rows in file order, mapped to records. -/
def civilImportRecords (input : String) : Option (List CivilRecord) :=
  let pr := papaParse input
  if pr.errors ≠ 0 then none
  else some ((pr.data.filter barAccept).map civilRowToRecord)

/-- The sequential persistence loop `for (const record of records) { await
addEmigrant(record); }`: records are appended to the store one at a time in
order; `ok i` tells whether the i-th insert succeeds; the first failing insert
throws, ending the loop with the earlier inserts kept (no rollback).  Returns
the final store and whether the loop completed. -/
def persistLoop (store : List CivilRecord) :
    List CivilRecord → (Nat → Bool) → Nat → List CivilRecord × Bool
  | [], _, _ => (store, true)
  | r :: rest, ok, i =>
    if ok i then persistLoop (store ++ [r]) rest ok (i + 1)
    else (store, false)

/-- The complete upload flow of `handleCSVUpload` on `BarChartPage.jsx`: a
parse-level error aborts before touching the store; otherwise the accepted
rows are persisted sequentially. -/
def runCsvUpload (input : String) (store : List CivilRecord) (ok : Nat → Bool) :
    List CivilRecord × Bool :=
  match civilImportRecords input with
  | none => (store, false)
  | some recs => persistLoop store recs ok 0

/-- The year selector of the pages: `Array.from(new
Set(list.map(r => r.year).filter(Boolean))).map(Number)` sorted ascending.
`filter(Boolean)` on numbers keeps exactly the nonzero values (`0` and `NaN`
are falsy); `map(Number)` is the identity on numbers; JavaScript `Set`
deduplicates, and `.sort((a, b) => a - b)` sorts ascending. -/
def yearsList (rs : List CivilRecord) : List Int :=
  List.insertionSort (fun a b => a ≤ b)
    (((rs.map (fun r => r.year)).filter (fun y => y != 0)).dedup)

/-- The year filter: `"All"` or a specific year (already numerically coerced,
as in `Number(selectedYear)`). -/
inductive YearSel where
  | all : YearSel
  | year : Int → YearSel

/-- `filteredRecords`: all records for `"All"`, otherwise the records with
`Number(r.year) === Number(selectedYear)`. -/
def civilFiltered (rs : List CivilRecord) : YearSel → List CivilRecord
  | YearSel.all => rs
  | YearSel.year y => rs.filter (fun r => r.year == y)

/-- The `totals` reduction of `BarChartPage.jsx`: per-category sum over the
filtered records, missing fields contributing 0 (`acc[field] += cur[field] || 0`). -/
def civilTotal (rs : List CivilRecord) (sel : YearSel) (f : String) : Int :=
  ((civilFiltered rs sel).map (fun r => r.js f)).sum

/-! ## Occupation page (`src/unnamed/part_000`) and education page
(`HorizontalChartPage.jsx`): row acceptance and header resolution -/

/-- Row filter of the occupation page: `row.year || row.Year`. -/
def occuAccept (row : Row) : Bool :=
  (jsGetTruthy row "year").isSome || (jsGetTruthy row "Year").isSome

/-- Row filter of `FlowMapPage.jsx`: `row.year || row.Year || row.YEAR`. -/
def flowAccept (row : Row) : Bool :=
  (jsGetTruthy row "year").isSome || (jsGetTruthy row "Year").isSome ||
    (jsGetTruthy row "YEAR").isSome

/-- Header-variant resolution of the occupation page (and, with the country
list, of `FlowMapPage.jsx`): `row[f] || row[f.toLowerCase()] ||
row[f.replace(/\s+/g, ' ').toLowerCase()] || 0`. -/
def occuValue (row : Row) (f : String) : Int :=
  resolvedValue row [f, strLower f, strLower (collapseWS f)]

/-- The education page's display-name → Firestore-safe-field mapping. -/
def eduFieldMappings : List (String × String) :=
  [("Not of Schooling Age", "notOfSchoolingAge"),
   ("No Formal Education", "noFormalEducation"),
   ("Elementary Level", "elementaryLevel"),
   ("Elementary Graduate", "elementaryGraduate"),
   ("High School Level", "highSchoolLevel"),
   ("High School Graduate", "highSchoolGraduate"),
   ("Vocational Level", "vocationalLevel"),
   ("Vocational Graduate", "vocationalGraduate"),
   ("College Level", "collegeLevel"),
   ("College Graduate", "collegeGraduate"),
   ("Post Graduate Level", "postGraduateLevel"),
   ("Post Graduate", "postGraduate"),
   ("Non-Formal Education", "nonFormalEducation"),
   ("Not Reported / No Response", "notReportedNoResponse")]

/-- The education page's display names (`eduDisplayNames`). -/
def eduDisplayNames : List String := eduFieldMappings.map (fun p => p.1)

/-- `eduFieldMappings[displayName]` as a function (unknown names give the
empty string, standing for `undefined`). -/
def eduSafe (d : String) : String :=
  (rlookup d eduFieldMappings).getD ""

/-- Header-variant resolution of `HorizontalChartPage.jsx`:
`row[displayName] || row[safeField] || row[displayName.toLowerCase()] ||
row[safeField.toLowerCase()] || 0`. -/
def eduValue (row : Row) (d : String) : Int :=
  resolvedValue row [d, eduSafe d, strLower d, strLower (eduSafe d)]

/-- The occupation page's category fields (`occuFields`). -/
def occuFields : List String :=
  ["Professional", "Managerial", "Clerical", "Sales", "Service", "Agriculture",
   "Production", "Armed Forces", "Housewives", "Retirees", "Students", "Minors",
   "Out of School Youth", "No Occupation Reported"]

/-- Abbreviation for building a concrete civil-status record
(year, single, married, widower, separated, divorced, notReported). -/
def civRec (y a b c d e f : Int) : CivilRecord :=
  ⟨y, a, b, c, d, e, f⟩

/-! ## Destination-country page (`FlowMapPage.jsx`): aggregation and percentages -/

/-- The destination-country categories of `FlowMapPage.jsx`. -/
def countries : List String :=
  ["USA", "CANADA", "JAPAN", "AUSTRALIA", "ITALY", "NEW ZEALAND",
   "UNITED KINGDOM", "GERMANY", "SOUTH KOREA", "SPAIN", "OTHERS"]

/-- A destination-country record: a year plus the per-country counts, read as
`record[country] || 0` (a field absent from the stored document reads as 0). -/
structure CRecord where
  year : Int
  counts : String → Int

/-- `filteredRecords` of `FlowMapPage.jsx`. -/
def flowFiltered (data : List CRecord) : YearSel → List CRecord
  | YearSel.all => data
  | YearSel.year y => data.filter (fun r => r.year == y)

/-- Per-country total over the selected records:
`filteredRecords.reduce((sum, item) => sum + (item[country] || 0), 0)`. -/
def countryTotal (data : List CRecord) (sel : YearSel) (c : String) : Int :=
  ((flowFiltered data sel).map (fun r => r.counts c)).sum

/-- `totalEmigrants` of `FlowMapPage.jsx`: the grand total over all countries
of the per-country totals for the selected year. -/
def totalEmigrants (data : List CRecord) (sel : YearSel) : Int :=
  (countries.map (fun c => countryTotal data sel c)).sum

/-- `x.toFixed(1)` on exact rationals: round to one decimal place, ties away
from smaller values (ECMAScript picks the larger candidate digit string). -/
def round1 (q : ℚ) : ℚ :=
  (Int.floor (q * 10 + 1 / 2) : ℚ) / 10

/-- The percentage shown in the country-totals table of `FlowMapPage.jsx`:
`totalEmigrants > 0 ? ((total / totalEmigrants) * 100).toFixed(1) : 0`. -/
def percentage (data : List CRecord) (sel : YearSel) (c : String) : ℚ :=
  if 0 < totalEmigrants data sel then
    round1 ((countryTotal data sel c : ℚ) / (totalEmigrants data sel : ℚ) * 100)
  else 0

/-! ## Editable table state machine (`BarChartPage.jsx`) -/

/-- A stored document: opaque id plus the record. -/
structure Doc where
  id : Nat
  record : CivilRecord
deriving DecidableEq, Repr

/-- The page state of `BarChartPage.jsx` relevant to the table handlers:
`store` is the backing collection, `emigrants` the fetched in-memory list,
`editingId`/`editForm` the edit session, `form` the add form, and `message`
the last toast message. -/
structure UIState where
  store : List Doc
  emigrants : List Doc
  editingId : Option Nat
  editForm : List (String × String)
  form : List (String × String)
  message : Option String
deriving DecidableEq, Repr

/-- The form-field list `allFormFields = ["year", ...civilStatusFields]`. -/
def allFormFields : List String := "year" :: civilStatusFields

/-- Seeding the edit form from a record on Edit click:
`formState[field] = String(emigrant[field] || "")` (a zero field seeds the
empty string, since `0` is falsy). -/
def seedForm (r : CivilRecord) : List (String × String) :=
  allFormFields.map (fun f => (f, if r.js f = 0 then "" else toString (r.js f)))

/-- `handleEdit`: remember the row id and seed the edit form. -/
def handleEdit (d : Doc) (s : UIState) : UIState :=
  { s with editingId := some d.id, editForm := seedForm d.record }

/-- `handleCancel`: clear the edit session; nothing else is touched. -/
def handleCancel (s : UIState) : UIState :=
  { s with editingId := none, editForm := [] }

/-- `Number(editForm.year)` in `handleSave`/`handleAdd`: no `|| 0` fallback, so
a missing or non-numeric year yields `NaN`, modelled as `none`. -/
def savedYear (form : List (String × String)) : Option Int :=
  (rlookup "year" form).bind jsNumber

/-- `Number(editForm[field]) || 0` for a category field: missing or
non-numeric input becomes 0. -/
def savedCat (form : List (String × String)) (f : String) : Int :=
  match rlookup f form with
  | some v => jsNumOr0 v
  | none => 0

/-- The record assembled by `handleSave` (and `handleAdd`) from a form.  The
year uses `Number(...)` without fallback; the `getD 0` covers the `NaN` case,
which `Int` cannot represent — the save/add theorems therefore carry the
hypothesis that the form's year is numeric-coercible, and the `NaN` divergence
itself is recorded separately. -/
def savedRecord (form : List (String × String)) : CivilRecord :=
  { year := (savedYear form).getD 0
    single := savedCat form "single"
    married := savedCat form "married"
    widower := savedCat form "widower"
    separated := savedCat form "separated"
    divorced := savedCat form "divorced"
    notReported := savedCat form "notReported" }

/-- `handleSave id`: issue `updateEmigrant(id, updatedRecord)` (a full-record
write of every field), then on success clear the edit session and re-fetch; on
failure only surface an error message.  `ok` is whether the store write
succeeds. -/
def handleSave (id : Nat) (ok : Bool) (s : UIState) : UIState :=
  let upd := savedRecord s.editForm
  if ok then
    let newStore := s.store.map (fun d => if d.id = id then { id := d.id, record := upd } else d)
    { s with store := newStore, emigrants := newStore, editingId := none,
             editForm := [], message := some "Record updated successfully!" }
  else
    { s with message := some "Error updating record" }

/-- Whether `!form.year` holds: the year field is missing or the empty string. -/
def formYearFalsy (form : List (String × String)) : Bool :=
  match rlookup "year" form with
  | some v => v = ""
  | none => true

/-- The empty add form the page resets to. -/
def emptyForm : List (String × String) :=
  allFormFields.map (fun f => (f, ""))

/-- `handleAdd`: validate that the year is present before any store call;
otherwise build the record from the form, append it to the store
(`addEmigrant`), reset the form and re-fetch.  `newId` is the id the store
assigns; `ok` is whether the insert succeeds. -/
def handleAdd (newId : Nat) (ok : Bool) (s : UIState) : UIState :=
  if formYearFalsy s.form then
    { s with message := some "Year is required" }
  else if ok then
    let newStore := s.store ++ [{ id := newId, record := savedRecord s.form }]
    { s with store := newStore, emigrants := newStore, form := emptyForm,
             message := some "Record added successfully!" }
  else
    { s with message := some "Error adding record" }

/-! ## Helper lemmas -/

theorem jsGetTruthy_single_empty (a k : String) : jsGetTruthy [(a, "")] k = none := by
  unfold jsGetTruthy rlookup
  by_cases h : k = a <;> simp [h, rlookup]

theorem resolveVariants_single_empty (a : String) (ks : List String) :
    resolveVariants [(a, "")] ks = none := by
  induction ks with
  | nil => rfl
  | cons k ks ih => rw [resolveVariants, jsGetTruthy_single_empty, ih]

theorem jsGetTruthy_single_self (a v : String) (hv : v ≠ "") :
    jsGetTruthy [(a, v)] a = some v := by
  unfold jsGetTruthy rlookup
  simp [hv]

theorem jsGetTruthy_single_other (a v k : String) (hk : k ≠ a) :
    jsGetTruthy [(a, v)] k = none := by
  unfold jsGetTruthy rlookup
  simp [hk, rlookup]

theorem resolveVariants_singleton (a v : String) (ks : List String) (h : a ∈ ks) :
    resolveVariants [(a, v)] ks = if v = "" then none else some v := by
  by_cases hv : v = ""
  · subst hv
    simp [resolveVariants_single_empty]
  · rw [if_neg hv]
    induction ks with
    | nil => cases h
    | cons k ks ih =>
      by_cases hk : k = a
      · subst hk
        rw [resolveVariants, jsGetTruthy_single_self k v hv]
      · rcases List.mem_cons.mp h with heq | hmem
        · exact absurd heq.symm hk
        · rw [resolveVariants, jsGetTruthy_single_other a v k hk, ih hmem]

theorem resolvedValue_singleton (a v : String) (ks : List String) (h : a ∈ ks) :
    resolvedValue [(a, v)] ks = jsNumOr0 v := by
  rw [resolvedValue, resolveVariants_singleton a v ks h]
  by_cases hv : v = ""
  · subst hv
    simp
    decide
  · simp [hv]

theorem resolveVariants_all_none (row : Row) (ks : List String)
    (h : ∀ k ∈ ks, jsGetTruthy row k = none) : resolveVariants row ks = none := by
  induction ks with
  | nil => rfl
  | cons k ks ih =>
    rw [resolveVariants, h k (List.mem_cons_self k ks)]
    exact ih (fun k hk => h k (List.mem_cons_of_mem _ hk))

theorem resolvedValue_fallback (row : Row) (ks : List String)
    (h : ∀ k ∈ ks, jsGetTruthy row k = none) : resolvedValue row ks = 0 := by
  rw [resolvedValue, resolveVariants_all_none row ks h]

/-! ## C2: row acceptance on upload -/

/-- C2 counterexample: acceptance is NOT "non-empty, numeric-coercible year
under any case variant, on every page".  `FlowMapPage.jsx` and the occupation
page accept a row whose `year` cell is the non-numeric string `"abc"` (no
numeric check in their filters), and `BarChartPage.jsx` rejects a row whose
year is under the header `Year` (its filter reads only lowercase `row.year`). -/
theorem row_acceptance_counterexample :
    flowAccept [("year", "abc")] = true
    ∧ occuAccept [("year", "abc")] = true
    ∧ jsNumber "abc" = none
    ∧ barAccept [("Year", "2019")] = false := by
  decide

/-- C2 amended: each page's importer filters the parsed rows with its own
acceptance predicate.  `BarChartPage.jsx` accepts a row exactly when its
lowercase `year` cell is present, non-empty and numeric-coercible; the
occupation page accepts exactly when `year` or `Year` is present and
non-empty (with no numeric check); `FlowMapPage.jsx` accepts exactly when any
of `year`, `Year`, `YEAR` is present and non-empty (with no numeric check). -/
theorem row_acceptance_per_page (row : Row) :
    (barAccept row = true
      ↔ ∃ s, rlookup "year" row = some s ∧ s ≠ "" ∧ (jsNumber s).isSome = true)
    ∧ (occuAccept row = true
      ↔ ((jsGetTruthy row "year").isSome = true ∨ (jsGetTruthy row "Year").isSome = true))
    ∧ (flowAccept row = true
      ↔ ((jsGetTruthy row "year").isSome = true ∨ (jsGetTruthy row "Year").isSome = true
          ∨ (jsGetTruthy row "YEAR").isSome = true)) := by
  refine ⟨?_, ?_, ?_⟩
  · rw [barAccept]
    cases h : rlookup "year" row with
    | none => simp [h]
    | some s => simp [h]
  · rw [occuAccept]
    simp [Bool.or_eq_true]
  · rw [flowAccept]
    simp [Bool.or_eq_true, or_assoc]

/-! ## C3: header-variant resolution -/

/-- C3: category-value resolution by header variants.  For the occupation page
(variants: verbatim, lower-cased, whitespace-collapsed-then-lower-cased), the
education page (variants: display name, camelCase safe alias, and their
lower-casings) and the civil-status page (variants: verbatim, capitalized,
camelCase-to-spaced), a row carrying the value under an alternate-cased header
resolves to the same value as the canonical header; and a row matching no
variant resolves to the fallback 0. -/
theorem header_variant_resolution (f d fc v : String) (row : Row)
    (h : ∀ k ∈ [f, strLower f, strLower (collapseWS f)], jsGetTruthy row k = none) :
    occuValue [(strLower f, v)] f = occuValue [(f, v)] f
    ∧ eduValue [(strLower d, v)] d = eduValue [(d, v)] d
    ∧ eduValue [(eduSafe d, v)] d = eduValue [(d, v)] d
    ∧ civilValue [(capitalizeFirst fc, v)] fc = civilValue [(fc, v)] fc
    ∧ occuValue row f = 0 := by
  refine ⟨?_, ?_, ?_, ?_, ?_⟩
  · rw [occuValue, occuValue,
      resolvedValue_singleton _ v _ (by simp),
      resolvedValue_singleton _ v _ (by simp)]
  · rw [eduValue, eduValue,
      resolvedValue_singleton _ v _ (by simp),
      resolvedValue_singleton _ v _ (by simp)]
  · rw [eduValue, eduValue,
      resolvedValue_singleton _ v _ (by simp),
      resolvedValue_singleton _ v _ (by simp)]
  · rw [civilValue, civilValue,
      resolvedValue_singleton _ v _ (by simp),
      resolvedValue_singleton _ v _ (by simp)]
  · exact resolvedValue_fallback row _ h

/-- C3 witness at a concrete field with internal whitespace, an education
display name, a civil-status camelCase field and a row with no matching
header. -/
theorem header_variant_resolution_witness :
    (∀ k ∈ ["Out of School Youth", strLower "Out of School Youth",
            strLower (collapseWS "Out of School Youth")],
        jsGetTruthy [("unrelated", "9")] k = none)
    ∧ (occuValue [(strLower "Out of School Youth", "42")] "Out of School Youth"
        = occuValue [("Out of School Youth", "42")] "Out of School Youth"
      ∧ eduValue [(strLower "Elementary Level", "42")] "Elementary Level"
        = eduValue [("Elementary Level", "42")] "Elementary Level"
      ∧ eduValue [(eduSafe "Elementary Level", "42")] "Elementary Level"
        = eduValue [("Elementary Level", "42")] "Elementary Level"
      ∧ civilValue [(capitalizeFirst "single", "42")] "single"
        = civilValue [("single", "42")] "single"
      ∧ occuValue [("unrelated", "9")] "Out of School Youth" = 0) :=
  ⟨by decide,
   header_variant_resolution "Out of School Youth" "Elementary Level" "single" "42"
     [("unrelated", "9")] (by decide)⟩

/-! ## C4: end-to-end import scenario -/

/-- C4 counterexample: the scenario's literal CSV has a second data line
`2020,80,,` with four fields against three headers, so PapaParse reports a
`TooManyFields` mismatch; `handleCSVUpload` sees `results.errors` non-empty and
aborts, persisting nothing — not the two records the claim describes. -/
theorem csv_scenario_counterexample :
    civilImportRecords "year,single,married\n2019,100,50\n2020,80,," = none
    ∧ runCsvUpload "year,single,married\n2019,100,50\n2020,80,," []
        (fun _ => true) = ([], false) := by
  decide

/-- C4 amended: with the second data line carrying three fields (`2020,80,`),
the import produces and persists exactly the two records
`{year 2019, single 100, married 50, rest 0}` and
`{year 2020, single 80, married 0, rest 0}`; aggregation then gives
`total(single) = 100` under the year-2019 filter and `180` under "All". -/
theorem csv_scenario_amended :
    civilImportRecords "year,single,married\n2019,100,50\n2020,80," =
      some [civRec 2019 100 50 0 0 0 0, civRec 2020 80 0 0 0 0 0]
    ∧ runCsvUpload "year,single,married\n2019,100,50\n2020,80," [] (fun _ => true)
        = ([civRec 2019 100 50 0 0 0 0, civRec 2020 80 0 0 0 0 0], true)
    ∧ civilTotal [civRec 2019 100 50 0 0 0 0, civRec 2020 80 0 0 0 0 0]
        (YearSel.year 2019) "single" = 100
    ∧ civilTotal [civRec 2019 100 50 0 0 0 0, civRec 2020 80 0 0 0 0 0]
        YearSel.all "single" = 180 := by
  decide

/-! ## C5: sequential persistence, abort on parse error, no rollback -/

theorem persistLoop_spec (recs : List CivilRecord) :
    ∀ (store : List CivilRecord) (ok : Nat → Bool) (i : Nat),
      ∃ k, k ≤ recs.length
        ∧ persistLoop store recs ok i = (store ++ recs.take k, decide (k = recs.length))
        ∧ (∀ j, j < k → ok (i + j) = true)
        ∧ (k < recs.length → ok (i + k) = false) := by
  induction recs with
  | nil =>
    intro store ok i
    exact ⟨0, by simp [persistLoop]⟩
  | cons r rest ih =>
    intro store ok i
    by_cases hok : ok i = true
    · obtain ⟨k, hk, heq, hall, hfail⟩ := ih (store ++ [r]) ok (i + 1)
      refine ⟨k + 1, by simpa using hk, ?_, ?_, ?_⟩
      · rw [persistLoop, if_pos hok, heq, List.take_succ_cons, List.append_assoc,
          List.singleton_append]
        have hdec : decide (k = rest.length) = decide (k + 1 = (r :: rest).length) :=
          decide_eq_decide.mpr (by simp [List.length_cons])
        rw [hdec]
      · intro j hj
        cases j with
        | zero => simpa using hok
        | succ j' =>
          have hax : i + (j' + 1) = i + 1 + j' := by omega
          rw [hax]
          exact hall j' (by omega)
      · intro hlt
        have hax : i + (k + 1) = i + 1 + k := by omega
        rw [hax]
        exact hfail (by simpa [List.length_cons] using hlt)
    · refine ⟨0, by simp, ?_, ?_, ?_⟩
      · rw [persistLoop, if_neg hok]
        simp
      · intro j hj
        omega
      · intro _
        simpa using Bool.eq_false_iff.mpr (fun hc => hok hc)

/-- C5: during a CSV import, accepted rows are persisted one at a time,
sequentially, in file order: the final store is the old store extended with
the first `k` produced records for some `k`; a parse-level error yields the
untouched store (abort before any persistence); the loop completes exactly
when every insert succeeded, the inserts up to `k` succeeded, and a failing
insert stops the loop without rolling back the earlier appends. -/
theorem csv_upload_sequential_no_rollback (input : String)
    (store : List CivilRecord) (ok : Nat → Bool) :
    ∃ k : Nat,
      (runCsvUpload input store ok
        = match civilImportRecords input with
          | none => (store, false)
          | some recs => (store ++ recs.take k, decide (k = recs.length)))
      ∧ (match civilImportRecords input with
         | none => k = 0
         | some recs =>
             k ≤ recs.length ∧ (∀ j, j < k → ok j = true)
               ∧ (k < recs.length → ok k = false)) := by
  cases h : civilImportRecords input with
  | none => exact ⟨0, by simp [runCsvUpload, h]⟩
  | some recs =>
    obtain ⟨k, hk, heq, hall, hfail⟩ := persistLoop_spec recs store ok 0
    refine ⟨k, ?_, hk, ?_, ?_⟩
    · simp [runCsvUpload, h, heq]
    · intro j hj
      simpa using hall j hj
    · intro hlt
      simpa using hfail hlt

/-! ## C6 and C10: the year-selector list -/

theorem mem_yearsList (rs : List CivilRecord) (y : Int) :
    y ∈ yearsList rs ↔ y ≠ 0 ∧ y ∈ rs.map (fun r => r.year) := by
  rw [yearsList]
  simp only [List.mem_insertionSort, List.mem_dedup, List.mem_filter, bne_iff_ne,
    ne_eq]
  tauto

/-- C6 counterexample: a record whose stored year is 0 (falsy) is dropped by
`filter(Boolean)`, so the selector list is NOT the set of all distinct
`record.year` values present: here the year value 0 is present but the
selector list is empty. -/
theorem years_selector_counterexample :
    yearsList [civRec 0 1 0 0 0 0 0] = []
    ∧ (0 : Int) ∈ [civRec 0 1 0 0 0 0 0].map (fun r => r.year) := by
  decide

/-- C6 amended: the year-selector list equals the sorted-ascending,
duplicate-free list of the distinct NONZERO (truthy) `record.year` values
present in the record list.  It is computed from the record list alone
(`yearsList` takes no year filter), hence independent of the selected filter. -/
theorem years_selector_sorted_distinct (rs : List CivilRecord) :
    List.Sorted (fun a b : Int => a ≤ b) (yearsList rs)
    ∧ (yearsList rs).Nodup
    ∧ ∀ y : Int, y ∈ yearsList rs ↔ y ≠ 0 ∧ y ∈ rs.map (fun r => r.year) := by
  refine ⟨List.sorted_insertionSort _ _, ?_, fun y => mem_yearsList rs y⟩
  exact ((List.perm_insertionSort _ _).nodup_iff).mpr (List.nodup_dedup _)

/-- C10: a record with a falsy (zero) year is excluded from the year-selector
list yet still belongs to the record set aggregated under the "All" filter;
and since every selectable year is nonzero, no year filter ever selects it —
the record can never be isolated via the year selector. -/
theorem falsy_year_unreachable (rs : List CivilRecord) (r : CivilRecord)
    (hr : r ∈ rs) (h0 : r.year = 0) :
    r ∈ civilFiltered rs YearSel.all
    ∧ r.year ∉ yearsList rs
    ∧ ∀ y, y ∈ yearsList rs → r ∉ civilFiltered rs (YearSel.year y) := by
  refine ⟨hr, ?_, ?_⟩
  · intro hmem
    exact ((mem_yearsList rs r.year).mp hmem).1 h0
  · intro y hy hmem
    have hy0 : y ≠ 0 := ((mem_yearsList rs y).mp hy).1
    have hmem2 : (r.year == y) = true := (List.mem_filter.mp hmem).2
    have hry : r.year = y := by simpa using hmem2
    exact hy0 (by omega)

/-- C10 witness: a single record with year 0. -/
theorem falsy_year_unreachable_witness :
    civRec 0 7 0 0 0 0 0 ∈ [civRec 0 7 0 0 0 0 0]
    ∧ (civRec 0 7 0 0 0 0 0).year = 0
    ∧ (civRec 0 7 0 0 0 0 0 ∈ civilFiltered [civRec 0 7 0 0 0 0 0] YearSel.all
      ∧ (civRec 0 7 0 0 0 0 0).year ∉ yearsList [civRec 0 7 0 0 0 0 0]
      ∧ ∀ y, y ∈ yearsList [civRec 0 7 0 0 0 0 0] →
          civRec 0 7 0 0 0 0 0 ∉ civilFiltered [civRec 0 7 0 0 0 0 0] (YearSel.year y)) :=
  ⟨by decide, by decide,
   falsy_year_unreachable [civRec 0 7 0 0 0 0 0] (civRec 0 7 0 0 0 0 0)
     (by decide) (by decide)⟩

/-! ## C7: edit then cancel -/

/-- C7: entering edit mode on a row and pressing Cancel performs no store
write: the resulting state is the original one with the edit session cleared
(`editingId` = none, edit form emptied); the store, the fetched list, the add
form and the message are untouched. -/
theorem edit_cancel_no_write (d : Doc) (s : UIState) :
    handleCancel (handleEdit d s) = { s with editingId := none, editForm := [] } :=
  rfl

/-! ## C8: save semantics -/

/-- C8 counterexample: `handleSave` does NOT map every non-numeric field to 0.
The category fields go through `Number(x) || 0`, but the year goes through
bare `Number(editForm.year)`: a non-numeric year yields `NaN` (modelled
`none`), not 0. -/
theorem save_year_nan_counterexample :
    savedYear [("year", "abc")] = none
    ∧ savedYear [("year", "abc")] ≠ some 0
    ∧ savedCat [("year", "abc"), ("single", "abc")] "single" = 0 := by
  decide

/-- C8 amended: for an edit form whose year is numeric-coercible, Save issues
a full-record update: every document carrying the target id has every field
replaced by the converted form values (category fields via `Number(x) || 0`,
non-numeric input becoming 0; the year via `Number(x)`, which on a
non-numeric string would give `NaN` rather than 0); documents with other ids
are untouched; on success the edit session is cleared and the list is
re-fetched from the store; on failure the store, the edit session and the
form are unchanged and an error message is surfaced. -/
theorem save_full_overwrite (s : UIState) (id : Nat) (y : Int)
    (h : savedYear s.editForm = some y) :
    ((handleSave id true s).editingId = none)
    ∧ ((handleSave id true s).editForm = [])
    ∧ ((handleSave id true s).emigrants = (handleSave id true s).store)
    ∧ (∀ d, d ∈ (handleSave id true s).store → d.id = id →
        d.record = civRec y (savedCat s.editForm "single") (savedCat s.editForm "married")
          (savedCat s.editForm "widower") (savedCat s.editForm "separated")
          (savedCat s.editForm "divorced") (savedCat s.editForm "notReported"))
    ∧ (∀ d, d ∈ (handleSave id true s).store → d.id ≠ id → d ∈ s.store)
    ∧ ((handleSave id false s).store = s.store)
    ∧ ((handleSave id false s).emigrants = s.emigrants)
    ∧ ((handleSave id false s).editingId = s.editingId)
    ∧ ((handleSave id false s).editForm = s.editForm)
    ∧ ((handleSave id false s).message = some "Error updating record") := by
  have hrec : savedRecord s.editForm
      = civRec y (savedCat s.editForm "single") (savedCat s.editForm "married")
          (savedCat s.editForm "widower") (savedCat s.editForm "separated")
          (savedCat s.editForm "divorced") (savedCat s.editForm "notReported") := by
    rw [savedRecord, civRec, h]
    rfl
  refine ⟨rfl, rfl, rfl, ?_, ?_, rfl, rfl, rfl, rfl, rfl⟩
  · intro d hd hid
    rw [handleSave] at hd
    simp only [if_pos rfl] at hd
    obtain ⟨d0, hd0, hmap⟩ := List.mem_map.mp hd
    by_cases h0 : d0.id = id
    · rw [if_pos h0] at hmap
      rw [← hmap, hrec]
    · rw [if_neg h0] at hmap
      rw [← hmap] at hid
      exact absurd hid h0
  · intro d hd hid
    rw [handleSave] at hd
    simp only [if_pos rfl] at hd
    obtain ⟨d0, hd0, hmap⟩ := List.mem_map.mp hd
    by_cases h0 : d0.id = id
    · rw [if_pos h0] at hmap
      rw [← hmap] at hid
      exact absurd h0 hid
    · rw [if_neg h0] at hmap
      rw [← hmap]
      exact hd0

/-- C8 witness: a one-document store and an edit form with year "2021". -/
theorem save_full_overwrite_witness :
    savedYear [("year", "2021"), ("single", "7")] = some 2021
    ∧ (let s0 : UIState :=
        { store := [{ id := 1, record := civRec 2019 1 2 3 4 5 6 }],
          emigrants := [{ id := 1, record := civRec 2019 1 2 3 4 5 6 }],
          editingId := some 1, editForm := [("year", "2021"), ("single", "7")],
          form := [], message := none };
      ((handleSave 1 true s0).editingId = none)
      ∧ ((handleSave 1 true s0).editForm = [])
      ∧ ((handleSave 1 true s0).emigrants = (handleSave 1 true s0).store)
      ∧ (∀ d, d ∈ (handleSave 1 true s0).store → d.id = 1 →
          d.record = civRec 2021 (savedCat s0.editForm "single")
            (savedCat s0.editForm "married") (savedCat s0.editForm "widower")
            (savedCat s0.editForm "separated") (savedCat s0.editForm "divorced")
            (savedCat s0.editForm "notReported"))
      ∧ (∀ d, d ∈ (handleSave 1 true s0).store → d.id ≠ 1 → d ∈ s0.store)
      ∧ ((handleSave 1 false s0).store = s0.store)
      ∧ ((handleSave 1 false s0).emigrants = s0.emigrants)
      ∧ ((handleSave 1 false s0).editingId = s0.editingId)
      ∧ ((handleSave 1 false s0).editForm = s0.editForm)
      ∧ ((handleSave 1 false s0).message = some "Error updating record")) :=
  ⟨by decide,
   save_full_overwrite
     { store := [{ id := 1, record := civRec 2019 1 2 3 4 5 6 }],
       emigrants := [{ id := 1, record := civRec 2019 1 2 3 4 5 6 }],
       editingId := some 1, editForm := [("year", "2021"), ("single", "7")],
       form := [], message := none } 1 2021 (by decide)⟩

/-! ## C9: add requires a year -/

/-- C9: when the add form's year field is empty (or absent), `handleAdd`
surfaces the validation message and returns before any store call: the
resulting state is the original one with only the message changed — the
store, the fetched list, the form and the edit session are all unchanged, and
no record is created. -/
theorem add_requires_year (s : UIState) (newId : Nat) (ok : Bool)
    (h : formYearFalsy s.form = true) :
    handleAdd newId ok s = { s with message := some "Year is required" } := by
  rw [handleAdd, if_pos h]

/-- C9 witness: an add form with an empty year. -/
theorem add_requires_year_witness :
    formYearFalsy [("year", ""), ("single", "5")] = true
    ∧ handleAdd 3 true
        { store := [{ id := 1, record := civRec 2019 1 2 3 4 5 6 }],
          emigrants := [{ id := 1, record := civRec 2019 1 2 3 4 5 6 }],
          editingId := none, editForm := [],
          form := [("year", ""), ("single", "5")], message := none }
      = { store := [{ id := 1, record := civRec 2019 1 2 3 4 5 6 }],
          emigrants := [{ id := 1, record := civRec 2019 1 2 3 4 5 6 }],
          editingId := none, editForm := [],
          form := [("year", ""), ("single", "5")],
          message := some "Year is required" } :=
  ⟨by decide,
   add_requires_year
     { store := [{ id := 1, record := civRec 2019 1 2 3 4 5 6 }],
       emigrants := [{ id := 1, record := civRec 2019 1 2 3 4 5 6 }],
       editingId := none, editForm := [],
       form := [("year", ""), ("single", "5")], message := none } 3 true (by decide)⟩

/-! ## C1: percentage shares on the country page -/

/-- A record list with a negative count, as the import path permits (negative
CSV values are neither clamped nor rejected). -/
def negRecord : CRecord :=
  { year := 2019, counts := fun c => if c = "USA" then -5 else 0 }

/-- C1 counterexample: for a record list whose grand total is negative (which
the import path permits), the shown percentage is the guarded 0, not
`total/grandTotal*100` rounded — here the formula gives 100.0 while the page
shows 0.  The claim's universally-quantified formula part therefore fails. -/
theorem percentage_counterexample :
    percentage [negRecord] YearSel.all "USA"
      ≠ round1 ((countryTotal [negRecord] YearSel.all "USA" : ℚ)
          / (totalEmigrants [negRecord] YearSel.all : ℚ) * 100) := by
  have ht : totalEmigrants [negRecord] YearSel.all = -5 := by decide
  have hc : countryTotal [negRecord] YearSel.all "USA" = -5 := by decide
  have hp : percentage [negRecord] YearSel.all "USA" = 0 := by
    rw [percentage, ht]
    norm_num
  have hf : round1 ((countryTotal [negRecord] YearSel.all "USA" : ℚ)
      / (totalEmigrants [negRecord] YearSel.all : ℚ) * 100) = 100 := by
    rw [ht, hc, round1]
    norm_num
  rw [hp, hf]
  norm_num

/-- C1 amended: whenever the grand total is non-negative, the shown percentage
is `total(category) / grandTotal * 100` rounded to one decimal when the grand
total is positive, and 0 when the grand total is 0 (the division is guarded,
so no divide-by-zero fault occurs); a negative grand total — possible only
through negative imported values — also shows 0. -/
theorem percentage_spec (data : List CRecord) (sel : YearSel) (c : String)
    (h : 0 ≤ totalEmigrants data sel) :
    percentage data sel c
      = if totalEmigrants data sel = 0 then 0
        else round1 ((countryTotal data sel c : ℚ)
          / (totalEmigrants data sel : ℚ) * 100) := by
  rcases lt_or_eq_of_le h with hpos | hzero
  · rw [percentage, if_pos hpos, if_neg (by omega)]
  · rw [percentage, ← hzero]
    simp

/-- C1 witness: one record with 150 USA emigrants. -/
theorem percentage_spec_witness :
    (0 : Int) ≤ totalEmigrants [{ year := 2019, counts := fun c => if c = "USA" then 150 else 0 }] YearSel.all
    ∧ percentage [{ year := 2019, counts := fun c => if c = "USA" then 150 else 0 }] YearSel.all "CANADA"
      = if totalEmigrants [{ year := 2019, counts := fun c => if c = "USA" then 150 else 0 }] YearSel.all = 0 then 0
        else round1 ((countryTotal [{ year := 2019, counts := fun c => if c = "USA" then 150 else 0 }] YearSel.all "CANADA" : ℚ)
          / (totalEmigrants [{ year := 2019, counts := fun c => if c = "USA" then 150 else 0 }] YearSel.all : ℚ) * 100) :=
  ⟨by decide,
   percentage_spec [{ year := 2019, counts := fun c => if c = "USA" then 150 else 0 }]
     YearSel.all "CANADA" (by decide)⟩
